import Mathlib

/-!
Verification of the GitTeach conversational-agent pipeline scripts.

The definitions below are a shallow embedding of the three verification
scripts (`scripts/verify_agent_flow.py`, `scripts/verify_repo_analysis.py`,
`scripts/stress_test_ai.py`).  The language-model backend is modelled as a
pure function from a chat-completion request to the raw text it returns;
`json.loads` is modelled by a strict JSON parser (`jsonParse`), and the
scripts' cleaning expression
`raw.replace('```json', '').replace('```', '').strip()` is modelled
character-for-character by `cleanRaw` (Python `str.replace` deletes every
occurrence in one left-to-right pass; `str.strip` trims whitespace at both
ends).
-/

/-- JSON values, as returned by Python `json.loads`.  Numbers keep their
validated lexeme (the scripts never perform arithmetic on parsed numbers),
objects keep their members in textual order (lookups take the last
occurrence of a key, matching Python dict construction). -/
inductive JVal : Type where
  | jnull : JVal
  | jbool : Bool → JVal
  | jnum : String → JVal
  | jstr : String → JVal
  | jarr : List JVal → JVal
  | jobj : List (String × JVal) → JVal

/-- JSON whitespace accepted between tokens by Python `json.loads`. -/
def jsonWs (c : Char) : Bool :=
  c = ' ' || c = '\t' || c = '\n' || c = '\r'

/-- Skip JSON whitespace. -/
def skipWs (cs : List Char) : List Char :=
  cs.dropWhile jsonWs

/-- Value of a hex digit, if the character is one. -/
def hexDigit? (c : Char) : Option Nat :=
  if '0' ≤ c ∧ c ≤ '9' then some (c.toNat - '0'.toNat)
  else if 'a' ≤ c ∧ c ≤ 'f' then some (c.toNat - 'a'.toNat + 10)
  else if 'A' ≤ c ∧ c ≤ 'F' then some (c.toNat - 'A'.toNat + 10)
  else none

/-- The character denoted by a single-letter JSON string escape. -/
def escChar? (c : Char) : Option Char :=
  if c = '"' then some '"'
  else if c = '\\' then some '\\'
  else if c = '/' then some '/'
  else if c = 'b' then some '\x08'
  else if c = 'f' then some '\x0c'
  else if c = 'n' then some '\n'
  else if c = 'r' then some '\r'
  else if c = 't' then some '\t'
  else none

/-- Parse the body of a JSON string (the input starts just after the
opening quote); returns the decoded characters and the input after the
closing quote.  Unescaped control characters are rejected, as by Python
`json.loads` in its default strict mode.  (`\u` escapes are decoded
code-unit-wise, without surrogate-pair combination; no input in this
development contains one.) -/
def pStr : Nat → List Char → Option (List Char × List Char)
  | 0, _ => none
  | _ + 1, [] => none
  | f + 1, c :: cs =>
    if c = '"' then some ([], cs)
    else if c = '\\' then
      match cs with
      | [] => none
      | e :: cs2 =>
        if e = 'u' then
          match cs2 with
          | h1 :: h2 :: h3 :: h4 :: cs3 =>
            match hexDigit? h1, hexDigit? h2, hexDigit? h3, hexDigit? h4 with
            | some a, some b, some c3, some d =>
              (pStr f cs3).map
                (fun pr => (Char.ofNat (((a * 16 + b) * 16 + c3) * 16 + d) :: pr.1, pr.2))
            | _, _, _, _ => none
          | _ => none
        else
          match escChar? e with
          | some ec => (pStr f cs2).map (fun pr => (ec :: pr.1, pr.2))
          | none => none
    else if c.toNat < 32 then none
    else (pStr f cs).map (fun pr => (c :: pr.1, pr.2))

/-- Parse the exponent part of a JSON number, after the `e`/`E`. -/
def pExp (e : Char) (r : List Char) : Option (List Char × List Char) :=
  let sgn : List Char × List Char :=
    match r with
    | '+' :: rest => (['+'], rest)
    | '-' :: rest => (['-'], rest)
    | _ => ([], r)
  let ds := sgn.2.takeWhile Char.isDigit
  if ds.isEmpty then none
  else some (e :: (sgn.1 ++ ds), sgn.2.dropWhile Char.isDigit)

/-- Parse a JSON number lexeme (strict grammar: no leading zeros, a
fraction or exponent must have digits), returning the lexeme. -/
def pNum (cs : List Char) : Option (String × List Char) :=
  let sgn : String × List Char :=
    match cs with
    | '-' :: rest => ("-", rest)
    | _ => ("", cs)
  let ip := sgn.2.takeWhile Char.isDigit
  let cs2 := sgn.2.dropWhile Char.isDigit
  if ip.isEmpty then none
  else if ip.length > 1 && (ip.head? == some '0') then none
  else
    let step2 : Option (List Char × List Char) :=
      match cs2 with
      | '.' :: r =>
        let fd := r.takeWhile Char.isDigit
        if fd.isEmpty then none else some ('.' :: fd, r.dropWhile Char.isDigit)
      | _ => some ([], cs2)
    match step2 with
    | none => none
    | some (fracPart, cs3) =>
      let step3 : Option (List Char × List Char) :=
        match cs3 with
        | 'e' :: r => pExp 'e' r
        | 'E' :: r => pExp 'E' r
        | _ => some ([], cs3)
      match step3 with
      | none => none
      | some (expPart, cs4) =>
        some (sgn.1 ++ String.mk ip ++ String.mk fracPart ++ String.mk expPart, cs4)

/-- Parser mode: a value, the inside of an object or array just after the
opening bracket, or the member/element loop with its accumulator. -/
inductive PMode : Type where
  | val : PMode
  | objStart : PMode
  | arrStart : PMode
  | objMembers : List (String × JVal) → PMode
  | arrElems : List JVal → PMode

/-- Fuel-indexed recursive-descent JSON parser (the single function makes
the recursion structural on the fuel).  `Infinity`, `-Infinity` and `NaN`
are accepted, as by Python `json.loads` with its defaults. -/
def pAny : Nat → PMode → List Char → Option (JVal × List Char)
  | 0, _, _ => none
  | f + 1, PMode.val, cs =>
    match skipWs cs with
    | '{' :: r => pAny f PMode.objStart r
    | '[' :: r => pAny f PMode.arrStart r
    | '"' :: r => (pStr (r.length + 1) r).map (fun pr => (JVal.jstr (String.mk pr.1), pr.2))
    | 't' :: 'r' :: 'u' :: 'e' :: r => some (JVal.jbool true, r)
    | 'f' :: 'a' :: 'l' :: 's' :: 'e' :: r => some (JVal.jbool false, r)
    | 'n' :: 'u' :: 'l' :: 'l' :: r => some (JVal.jnull, r)
    | 'N' :: 'a' :: 'N' :: r => some (JVal.jnum "NaN", r)
    | 'I' :: 'n' :: 'f' :: 'i' :: 'n' :: 'i' :: 't' :: 'y' :: r => some (JVal.jnum "Infinity", r)
    | '-' :: 'I' :: 'n' :: 'f' :: 'i' :: 'n' :: 'i' :: 't' :: 'y' :: r =>
      some (JVal.jnum "-Infinity", r)
    | other => (pNum other).map (fun pr => (JVal.jnum pr.1, pr.2))
  | f + 1, PMode.objStart, cs =>
    match skipWs cs with
    | '}' :: r => some (JVal.jobj [], r)
    | other => pAny f (PMode.objMembers []) other
  | f + 1, PMode.objMembers acc, cs =>
    match cs with
    | '"' :: r =>
      match pStr (r.length + 1) r with
      | some (kc, r2) =>
        match skipWs r2 with
        | ':' :: r3 =>
          match pAny f PMode.val r3 with
          | some (v, r4) =>
            match skipWs r4 with
            | ',' :: r5 => pAny f (PMode.objMembers (acc ++ [(String.mk kc, v)])) (skipWs r5)
            | '}' :: r5 => some (JVal.jobj (acc ++ [(String.mk kc, v)]), r5)
            | _ => none
          | none => none
        | _ => none
      | none => none
    | _ => none
  | f + 1, PMode.arrStart, cs =>
    match skipWs cs with
    | ']' :: r => some (JVal.jarr [], r)
    | other => pAny f (PMode.arrElems []) other
  | f + 1, PMode.arrElems acc, cs =>
    match pAny f PMode.val cs with
    | some (v, r) =>
      match skipWs r with
      | ',' :: r2 => pAny f (PMode.arrElems (acc ++ [v])) (skipWs r2)
      | ']' :: r2 => some (JVal.jarr (acc ++ [v]), r2)
      | _ => none
    | none => none

/-- Model of Python `json.loads`: parse one JSON value and require only
whitespace after it. -/
def jsonParse (s : String) : Option JVal :=
  match pAny (4 * s.length + 16) PMode.val s.data with
  | some (v, rest) => if (skipWs rest).isEmpty then some v else none
  | none => none

/-- Prefix test on character lists: `leadsWith pat xs` holds when `pat`
occurs at the head of `xs`. -/
def leadsWith : List Char → List Char → Bool
  | [], _ => true
  | _ :: _, [] => false
  | p :: ps, c :: cs => p = c && leadsWith ps cs

/-- One left-to-right deletion pass for Python `s.replace(pat, '')` with a
non-empty pattern: at each position, if `pat` matches it is deleted and the
scan resumes after it (the counter carries the pending characters still to
be skipped), otherwise the character is kept. -/
def removeAllGo (pat : List Char) : Nat → List Char → List Char
  | _, [] => []
  | k + 1, _ :: cs => removeAllGo pat k cs
  | 0, c :: cs =>
    if leadsWith pat (c :: cs) then removeAllGo pat (pat.length - 1) cs
    else c :: removeAllGo pat 0 cs

/-- Python `s.replace(pat, '')` for a non-empty `pat`, on strings. -/
def pyReplaceDel (pat : String) (s : String) : String :=
  String.mk (removeAllGo pat.data 0 s.data)

/-- The ASCII whitespace stripped by Python `str.strip()`. -/
def pySpace (c : Char) : Bool :=
  c = ' ' || c = '\t' || c = '\n' || c = '\r' || c = '\x0b' || c = '\x0c'

/-- Python `str.strip()` on character lists: drop whitespace at both ends. -/
def pyStrip (xs : List Char) : List Char :=
  (((xs.dropWhile pySpace).reverse).dropWhile pySpace).reverse

/-- Python `str.strip()` on strings. -/
def pyStripStr (s : String) : String :=
  String.mk (pyStrip s.data)

/-- The scripts' response-cleaning expression, translated verbatim:
`raw.replace('```json', '').replace('```', '').strip()`
(`scripts/verify_agent_flow.py` lines 95 and 118,
`scripts/verify_repo_analysis.py` line 91,
`scripts/stress_test_ai.py` line 76). -/
def cleanRaw (raw : String) : String :=
  pyStripStr (pyReplaceDel "```" (pyReplaceDel "```json" raw))

/-- The Response Parser of the scripts: clean the raw model output, then
parse it strictly with `json.loads`; `none` is the `MalformedResponse`
outcome (the bare `except` path). -/
def parseJsonObject (raw : String) : Option JVal :=
  jsonParse (cleanRaw raw)

/-- Wrap a string in a ```json code fence. -/
def fenceJson (s : String) : String :=
  "```json\n" ++ s ++ "\n```"

/-- Modelled from the spec: the spec's Response Parser algorithm (section
4.2) strips code-fence markers only from the start and the end of the text
(a leading ```` ```json ```` or ```` ``` ```` marker and a trailing
```` ``` ```` marker) and trims whitespace; interior text is untouched.
These definitions exist to be compared with `cleanRaw`, which is what the
scripts actually do.  `stripLeadFence` removes a leading fence marker,
`stripTrailFence` a trailing one, and `cleanSpec` composes them and
trims. -/
def stripLeadFence (l : List Char) : List Char :=
  if leadsWith "```json".data l then l.drop 7
  else if leadsWith "```".data l then l.drop 3
  else l

/-- Modelled from the spec: the trailing-marker half of the section 4.2
algorithm (see `stripLeadFence`). -/
def stripTrailFence (l : List Char) : List Char :=
  if leadsWith "```".data.reverse l.reverse then (l.reverse.drop 3).reverse
  else l

/-- Modelled from the spec: the section 4.2 cleaning algorithm — strip an
edge fence marker at each end, then trim whitespace. -/
def cleanSpec (raw : String) : String :=
  String.mk (pyStrip (stripTrailFence (stripLeadFence raw.data)))

/-- Modelled from the spec: the Response Parser as specified in section
4.2 — edge-only fence stripping followed by a strict JSON parse. -/
def parseJsonObjectSpec (raw : String) : Option JVal :=
  jsonParse (cleanSpec raw)

/-- One request to the chat-completions backend, as the scripts build it:
a system prompt, the user message, and the sampling temperature. -/
structure ChatCall : Type where
  system : String
  user : String
  temperature : ℚ

/-- The language-model backend, modelled as a deterministic function from
a request to the raw text of `choices[0].message.content` (the spec's
"deterministic backend stub", a fixed input-to-output table). -/
def Backend : Type := ChatCall → String

/-- Python `dict.get(k)` on a parsed JSON object: the last occurrence of a
key wins, matching Python dict construction from duplicate keys. -/
def pyGet (fs : List (String × JVal)) (k : String) : Option JVal :=
  match fs.reverse.find? (fun p => p.1 == k) with
  | some p => some p.2
  | none => none

/-- Python `str(v)` for a parsed JSON value, as used when the scripts
interpolate a parsed value into an f-string.  Scalar values are rendered
exactly as Python renders them; the container rendering is abbreviated
(the scripts only ever interpolate scalar fields, so it is never
exercised by any claim input). -/
def pyStr : JVal → String
  | JVal.jnull => "None"
  | JVal.jbool true => "True"
  | JVal.jbool false => "False"
  | JVal.jnum l => l
  | JVal.jstr s => s
  | JVal.jarr _ => "[...]"
  | JVal.jobj _ => "\x7b...\x7d"

/-- Python `v == "lit"` for a parsed JSON value compared against a string
literal: string values compare by content, every other value compares
unequal (Python `==` between a non-str and a str is `False`). -/
def JVal.eqStr : JVal → String → Bool
  | JVal.jstr s, t => s == t
  | _, _ => false

/-- The Router system prompt of `verify_agent_flow.py` (`get_router_prompt`). -/
def get_router_prompt : String :=
  "SYSTEM: You are an Intent Classifier. You ONLY output JSON.\nTasks:\n1. Analyze the user request.\n2. Match it to a tool ID from the catalog.\n3. If no match, use \"chat\".\n\nCATALOG:\n- github_stats: Stats, score, performance.\n- welcome_header: Welcome banner, header, \"hola\". params: type, color, text.\n- tech_stack: Stack, badges, tools.\n- top_langs: Top languages chart.\n- contribution_snake: Snake game, animation.\n\nEXAMPLES:\nUser: \"Pon mis estadísticas\"\nJSON: \x7b\"tool\": \"github_stats\"\x7d\n\nUser: \"Hola\"\nJSON: \x7b\"tool\": \"chat\"\x7d\n\nRESPONSE FORMAT:\n\x7b\"tool\": \"TOOL_ID_OR_CHAT\"\x7d\n"

/-- The tool ids listed in the Tool Catalog section of the Router prompt
of `verify_agent_flow.py`. -/
def catalogIds : List String :=
  ["github_stats", "welcome_header", "tech_stack", "top_langs", "contribution_snake"]

/-- The Constructor system prompt of `verify_agent_flow.py`
(`get_constructor_prompt`), an f-string over the routed tool id. -/
def get_constructor_prompt (tool_id : String) : String :=
  "Eres un Extractor de Parámetros experto para la herramienta \"" ++ tool_id ++
  "\".\nTu único trabajo es leer el texto del usuario y sacar los datos para llenar este JSON.\n\nVARIABLES A EXTRAER:\n- type (waving, shark, etc)\n- color (red, blue, hex)\n- text (custom text)\n\nEJEMPLO:\nInput: \"Pon un banner estilo shark color rojo\"\nJSON:\n\x7b\n  \"action\": \"insert_banner\",\n  \"toolId\": \"" ++
  tool_id ++
  "\",\n  \"params\": \x7b\n    \"type\": \"shark\",\n    \"color\": \"red\"\n  \x7d\n\x7d\n\nTU TURNO: Responde SOLO con el JSON válido.\n"

/-- The Responder system prompt of `verify_agent_flow.py`
(`get_responder_prompt`), an f-string over the tool name, the execution
result and the user input. -/
def get_responder_prompt (tool_name result user_input : String) : String :=
  "Eres el Agente de Comunicación de GitTeach.\nAcabamos de ejecutar una acción técnica basada en la petición del usuario.\nTu trabajo es reportar el resultado de forma natural y amigable en ESPAÑOL.\n\nCONTEXTO:\n- Petición del Usuario: \"" ++ user_input ++
  "\"\n- Herramienta Ejecutada: \"" ++ tool_name ++
  "\"\n- Resultado del Sistema: \"" ++ result ++
  "\"\n- Estado: ÉXITO ✅\n\nINSTRUCCIONES:\n1. Confirma brevemente qué se hizo.\n2. NO menciones JSON ni detalles técnicos.\n3. Sé conciso.\n"

/-- The outcome of the routing stage of `verify_flow`: either the bare
`except` branch (print and `return`), or the extracted tool id. -/
inductive RouteResult : Type where
  | failed : String → RouteResult
  | decided : JVal → RouteResult

/-- The backend call the Router makes: `temperature` is `0.0`
(`verify_agent_flow.py` line 91). -/
def routerCall (u : String) : ChatCall :=
  ⟨get_router_prompt, u, 0⟩

/-- The routing stage of `verify_flow` (`verify_agent_flow.py` lines
85-100): call the backend, clean and `json.loads` the reply, and read
`router_json.get('tool', 'chat')`.  A reply that does not parse — or
parses to a non-dict, so that `.get` raises — takes the bare `except`
branch. -/
def routeDecision (b : Backend) (u : String) : RouteResult :=
  match jsonParse (cleanRaw (b (routerCall u))) with
  | some (JVal.jobj fs) => RouteResult.decided ((pyGet fs "tool").getD (JVal.jstr "chat"))
  | _ => RouteResult.failed (b (routerCall u))

/-- The backend call the Constructor makes: `temperature` is `0.0`
(`verify_agent_flow.py` line 114). -/
def constructorCall (tid : JVal) (u : String) : ChatCall :=
  ⟨get_constructor_prompt (pyStr tid), u, 0⟩

/-- The constructor stage of `verify_flow` (`verify_agent_flow.py` lines
107-122): call the backend with the routed tool id, clean and `json.loads`
the reply; the parsed object is used as-is (no schema validation), and a
reply that does not parse to a dict takes the bare `except` branch. -/
def construct (b : Backend) (tid : JVal) (u : String) : Option (List (String × JVal)) :=
  match jsonParse (cleanRaw (b (constructorCall tid u))) with
  | some (JVal.jobj cfs) => some cfs
  | _ => none

/-- `const_json.get('params', {})` (`verify_agent_flow.py` line 126). -/
def paramsVal (cfs : List (String × JVal)) : JVal :=
  (pyGet cfs "params").getD (JVal.jobj [])

/-- The mocked execution result (`verify_agent_flow.py` line 126):
`f"Banner '{tool_id}' insertado correctamente con color {params.get('color', 'auto')}."`. -/
def mockResult (tid : JVal) (ps : List (String × JVal)) : String :=
  "Banner \x27" ++ pyStr tid ++ "\x27 insertado correctamente con color " ++
  pyStr ((pyGet ps "color").getD (JVal.jstr "auto")) ++ "."

/-- The backend call the Responder makes: `temperature` is `0.7`
(`verify_agent_flow.py` line 138). -/
def responderCall (tid : JVal) (result u : String) : ChatCall :=
  ⟨get_responder_prompt (pyStr tid) result u, u, (7 : ℚ) / 10⟩

/-- How one run of `verify_flow` ends. `routerFailed` and
`constructorFailed` are the two bare `except` branches (carrying the raw
reply that failed to parse); `chatDone` is the `'chat'` early exit;
`crashed` is an uncaught `AttributeError` from
`const_json.get('params', {}).get('color', 'auto')` when the `params`
member is present but not a dict; `completed` carries the parsed
constructor object, the mocked execution result, and the final message. -/
inductive FlowOutcome : Type where
  | routerFailed : String → FlowOutcome
  | chatDone : FlowOutcome
  | constructorFailed : JVal → String → FlowOutcome
  | crashed : JVal → FlowOutcome
  | completed : JVal → List (String × JVal) → String → String → FlowOutcome

/-- One run of `verify_flow`: the backend calls it made, in order, and how
it ended. -/
structure FlowTrace : Type where
  calls : List ChatCall
  outcome : FlowOutcome

/-- The tail of `verify_flow` once the constructor reply has parsed to an
object `cfs`: mocked execution (which raises when a present `params`
member is not a dict) and the Responder call. -/
def flowAfterParams (b : Backend) (u : String) (tid : JVal) (cfs : List (String × JVal)) :
    FlowTrace :=
  match paramsVal cfs with
  | JVal.jobj ps =>
    ⟨[routerCall u, constructorCall tid u, responderCall tid (mockResult tid ps) u],
     FlowOutcome.completed tid cfs (mockResult tid ps)
       (b (responderCall tid (mockResult tid ps) u))⟩
  | _ => ⟨[routerCall u, constructorCall tid u], FlowOutcome.crashed tid⟩

/-- The tail of `verify_flow` once the Router has decided `tid`: the
`'chat'` early exit, otherwise the Constructor stage. -/
def flowAfterRoute (b : Backend) (u : String) (tid : JVal) : FlowTrace :=
  if JVal.eqStr tid "chat" then ⟨[routerCall u], FlowOutcome.chatDone⟩
  else
    match construct b tid u with
    | none =>
      ⟨[routerCall u, constructorCall tid u],
       FlowOutcome.constructorFailed tid (b (constructorCall tid u))⟩
    | some cfs => flowAfterParams b u tid cfs

/-- `verify_flow` of `scripts/verify_agent_flow.py`, as a function of the
backend and the user input: Router, `'chat'` early exit, Constructor,
mocked execution, Responder. -/
def verify_flow (b : Backend) (u : String) : FlowTrace :=
  match routeDecision b u with
  | RouteResult.failed raw => ⟨[routerCall u], FlowOutcome.routerFailed raw⟩
  | RouteResult.decided tid => flowAfterRoute b u tid

/-- Whether a raw backend reply cleans and parses to a JSON dict — the
condition under which the routing stage of `verify_flow` extracts a tool
id instead of taking its `except` branch. -/
def parsesAsObj (raw : String) : Bool :=
  match jsonParse (cleanRaw raw) with
  | some (JVal.jobj _) => true
  | _ => false

/-- Whether the mocked execution step of `verify_flow` was reached (the
`crashed` outcome raises inside that step, after it started). -/
def executorInvoked : FlowOutcome → Bool
  | FlowOutcome.completed _ _ _ _ => true
  | FlowOutcome.crashed _ => true
  | _ => false

/-- Whether an `ExecutionResult` (the mocked result string) was produced. -/
def executionResultExists : FlowOutcome → Bool
  | FlowOutcome.completed _ _ _ _ => true
  | _ => false

/-- Whether the Constructor stage of `verify_flow` was reached. -/
def constructorInvoked : FlowOutcome → Bool
  | FlowOutcome.routerFailed _ => false
  | FlowOutcome.chatDone => false
  | _ => true

/-- The final message of a completed turn, if the turn completed. -/
def finalMessageOf : FlowOutcome → Option String
  | FlowOutcome.completed _ _ _ m => some m
  | _ => none

/-- The tool id the Constructor stage of `verify_flow` was invoked with,
if it was reached. -/
def calledToolId : FlowOutcome → Option JVal
  | FlowOutcome.constructorFailed tid _ => some tid
  | FlowOutcome.crashed tid => some tid
  | FlowOutcome.completed tid _ _ _ => some tid
  | _ => none

/-- The keys of the `params` member of a parsed constructor reply (empty
when `params` is missing or not an object). -/
def paramsKeys (cfs : List (String × JVal)) : List String :=
  match pyGet cfs "params" with
  | some (JVal.jobj ps) => ps.map (fun p => p.1)
  | _ => []

/-- Modelled from the spec: the Tool Catalog's parameter schemas live in
the application's JS code, not in the repository scripts; the spec
(sections 3 and 8, Scenario A) has the Constructor extract `type` and
`color` for `welcome_header`, so those are taken as its required fields.
Other tools' schemas are not described, so no field is assumed required
for them. -/
def requiredFields : String → List String
  | "welcome_header" => ["type", "color"]
  | _ => []

/-- The Router system prompt of `verify_repo_analysis.py`. -/
def get_analysis_router_prompt : String :=
  "SYSTEM: You are an Intent Classifier. ONLY output JSON.\nCATALOG:\n- list_repos: List user repositories.\n- read_repo: Read README.md. params: repo, owner.\n- chat: General chitchat.\n\nEXAMPLES:\nUser: \"Qué repos tengo?\"\nJSON: \x7b\"tool\": \"list_repos\"\x7d\n\nUser: \"Lee el repo intro-electron\"\nJSON: \x7b\"tool\": \"read_repo\"\x7d\n\nRESPONSE FORMAT:\n\x7b\"tool\": \"TOOL_ID\"\x7d\n"

/-- The Constructor system prompt of `verify_repo_analysis.py`
(`get_constructor_prompt` there), branching on `tool_id == 'read_repo'`. -/
def get_analysis_constructor_prompt (tool_id : JVal) : String :=
  if JVal.eqStr tool_id "read_repo" then
    "Eres un Extractor.\nVARIABLES:\n- repo (nombre del repo)\n- owner (usuario, opcional)\n\nEJEMPLO:\nInput: \"Analiza el proyecto my-app\"\nJSON: \x7b \"action\": \"read_repo\", \"toolId\": \"read_repo\", \"params\": \x7b \"repo\": \"my-app\" \x7d \x7d\n\nTU TURNO: Responde SOLO JSON.\n"
  else "TU TURNO: Responde JSON vacío \x7b\x7d"

/-- The Responder system prompt of `verify_repo_analysis.py`
(`get_responder_prompt` there). -/
def get_analysis_responder_prompt (tool : JVal) (result user_input : String) : String :=
  "Eres un Asistente de Código.\nCONTEXTO:\n- Usuario: \"" ++ user_input ++
  "\"\n- Acción: \"" ++ pyStr tool ++
  "\"\n- Resultado: \"" ++ result ++
  "\"\n\nINSTRUCCIONES:\n1. Analiza el resultado obtenido.\n2. Responde al usuario resumiendo lo que encontraste.\n3. Sé técnico pero breve.\n"

/-- `MOCK_README` of `verify_repo_analysis.py`. -/
def MOCK_README : String :=
  "\n# Intro to Electron\n\nUn proyecto simple para aprender Electron JS.\nIncluye un sistema de gestión de perfiles de GitHub.\n\n## Características\n- Login con GitHub\n- Visualización de Repositorios\n- Editor de README con IA Local (LFM 2.5)\n- Integración con OpenRouter (Opcional)\n\n## Instalación\n1. npm install\n2. npm start\n"

/-- The fixed user input of `verify_analysis_flow`. -/
def analysisUserInput : String :=
  "Analiza el repositorio intro-electron y dime qué hace"

/-- The Router backend call of `verify_analysis_flow` (`temperature` 0.0). -/
def analysisRouterCall : ChatCall :=
  ⟨get_analysis_router_prompt, analysisUserInput, 0⟩

/-- The routing step of `verify_analysis_flow` (`verify_repo_analysis.py`
lines 90-93): `json.loads(...)['tool']` inside a `try` whose `except`
branch sets `tool_id = "read_repo"` — so a reply that fails to parse, is
not a dict, or lacks the `tool` key (a `KeyError`) all fall back to the
hardcoded guess `read_repo`. -/
def analysisToolId (b : Backend) : JVal :=
  match jsonParse (cleanRaw (b analysisRouterCall)) with
  | some (JVal.jobj fs) =>
    match pyGet fs "tool" with
    | some v => v
    | none => JVal.jstr "read_repo"
  | _ => JVal.jstr "read_repo"

/-- The mocked execution result of `verify_analysis_flow` (line 108). -/
def analysisResult : String :=
  "Contenido de intro-electron/README.md:\n" ++ MOCK_README

/-- `verify_analysis_flow` of `scripts/verify_repo_analysis.py`: Router
(with the `read_repo` guess on failure), Constructor (whose reply is
printed, never parsed), mocked execution, Responder.  All three backend
calls always happen; the value is the calls made and the final message. -/
def verify_analysis_flow (b : Backend) : List ChatCall × String :=
  let tid := analysisToolId b
  let c2 : ChatCall := ⟨get_analysis_constructor_prompt tid, analysisUserInput, 0⟩
  let c3 : ChatCall :=
    ⟨get_analysis_responder_prompt tid analysisResult analysisUserInput, analysisUserInput,
     (7 : ℚ) / 10⟩
  ([analysisRouterCall, c2, c3], b c3)

/-- A backend stub that always answers with an unrecognized tool id. -/
def backendUnknownTool : Backend :=
  fun _ => "\x7b\"tool\": \"not_a_real_tool\"\x7d"

/-- A backend stub that always answers with the catalog id `tech_stack`. -/
def backendTechStack : Backend :=
  fun _ => "\x7b\"tool\": \"tech_stack\"\x7d"

/-- A backend stub that always answers with the chat intent. -/
def backendChat : Backend :=
  fun _ => "\x7b\"tool\": \"chat\"\x7d"

/-- A backend stub that always answers with an empty JSON object. -/
def backendEmptyObj : Backend :=
  fun _ => "\x7b\x7d"

/-- A backend stub that always answers with unparseable prose. -/
def backendSorry : Backend :=
  fun _ => "Sorry, I cannot help"

/-- A constructor reply that parses but whose `params` object is empty. -/
def replyEmptyParams : String :=
  "\x7b\"action\": \"insert_banner\", \"toolId\": \"welcome_header\", \"params\": \x7b\x7d\x7d"

/-- A constructor reply with both `type` and `color` extracted. -/
def replyFullParams : String :=
  "\x7b\"action\": \"insert_banner\", \"toolId\": \"welcome_header\", \"params\": \x7b\"type\": \"shark\", \"color\": \"blue\"\x7d\x7d"

/-- A backend stub that always answers the constructor reply with empty
`params` (used with `construct` directly). -/
def backendEmptyParams : Backend :=
  fun _ => replyEmptyParams

/-- A backend stub that always answers the constructor reply with full
`params` (used with `construct` directly). -/
def backendFullParams : Backend :=
  fun _ => replyFullParams

/-- A backend stub that routes to `welcome_header` and then answers the
constructor with a parseable reply whose `params` is empty. -/
def backendRouteThenEmptyParams : Backend :=
  fun c =>
    if c.system = get_router_prompt then "\x7b\"tool\": \"welcome_header\"\x7d"
    else replyEmptyParams

/-- A backend stub that routes to `welcome_header` and then answers the
constructor with unparseable prose. -/
def backendRouteThenSorry : Backend :=
  fun c =>
    if c.system = get_router_prompt then "\x7b\"tool\": \"welcome_header\"\x7d"
    else "Sorry, I cannot help"

/-- A backend stub that routes to `welcome_header`, answers the
constructor with full `params`, and answers the responder with the empty
string. -/
def backendEmptyResponder : Backend :=
  fun c =>
    if c.system = get_router_prompt then "\x7b\"tool\": \"welcome_header\"\x7d"
    else if c.system = get_constructor_prompt "welcome_header" then replyFullParams
    else ""

/-- A backend stub that routes to `welcome_header`, answers the
constructor with full `params`, and answers the responder with a short
confirmation. -/
def backendNiceResponder : Backend :=
  fun c =>
    if c.system = get_router_prompt then "\x7b\"tool\": \"welcome_header\"\x7d"
    else if c.system = get_constructor_prompt "welcome_header" then replyFullParams
    else "¡Listo! Tu banner ya está en el README."

/-- A backend stub that answers the router call like `backendChat` but
answers every other call differently (used to witness that the route
decision depends only on the router call's reply). -/
def backendChatElsewhereDifferent : Backend :=
  fun c =>
    if c.system = get_router_prompt then "\x7b\"tool\": \"chat\"\x7d"
    else "SOMETHING COMPLETELY DIFFERENT"

set_option maxRecDepth 80000

theorem leadsWith_length_le : ∀ (p xs : List Char), leadsWith p xs = true → p.length ≤ xs.length := by
  intro p
  induction p with
  | nil => intro xs _; simp
  | cons q ps ih =>
    intro xs h
    cases xs with
    | nil => simp [leadsWith] at h
    | cons c cs =>
      simp only [leadsWith, Bool.and_eq_true] at h
      simpa using ih cs h.2

theorem leadsWith_newline (p : List Char) (hne : p ≠ []) (hnl : '\n' ∉ p) (ys : List Char) :
    leadsWith p ('\n' :: ys) = false := by
  cases p with
  | nil => exact absurd rfl hne
  | cons q ps =>
    have hq : ¬ q = '\n' := by
      intro h
      exact hnl (by rw [h] at *; exact List.mem_cons_self _ _)
    simp [leadsWith, hq]

theorem leadsWith_append_newline (p : List Char) (hnl : '\n' ∉ p) :
    ∀ (xs ys : List Char), leadsWith p (xs ++ '\n' :: ys) = leadsWith p xs := by
  induction p with
  | nil => intro xs ys; simp [leadsWith]
  | cons q ps ih =>
    intro xs ys
    have hps : '\n' ∉ ps := fun h => hnl (List.mem_cons_of_mem _ h)
    cases xs with
    | nil =>
      rw [List.nil_append]
      rw [leadsWith_newline (q :: ps) (by simp) hnl ys]
      rfl
    | cons c cs =>
      simp only [List.cons_append, leadsWith]
      rw [show (cs.append ('\n' :: ys) : List Char) = cs ++ '\n' :: ys from rfl]
      rw [ih hps cs ys]

theorem leadsWith_self_append : ∀ (p rest : List Char), leadsWith p (p ++ rest) = true := by
  intro p
  induction p with
  | nil => intro rest; rfl
  | cons q ps ih => intro rest; simp [leadsWith, ih rest]

theorem removeAllGo_nil (pat : List Char) (k : Nat) : removeAllGo pat k [] = [] := by
  cases k <;> rfl

theorem removeAllGo_succ (pat : List Char) (k : Nat) (c : Char) (cs : List Char) :
    removeAllGo pat (k + 1) (c :: cs) = removeAllGo pat k cs := rfl

theorem removeAllGo_zero (pat : List Char) (c : Char) (cs : List Char) :
    removeAllGo pat 0 (c :: cs) =
      if leadsWith pat (c :: cs) then removeAllGo pat (pat.length - 1) cs
      else c :: removeAllGo pat 0 cs := rfl

theorem removeAllGo_skip (pat : List Char) :
    ∀ (xs ys : List Char), removeAllGo pat xs.length (xs ++ ys) = removeAllGo pat 0 ys := by
  intro xs
  induction xs with
  | nil => intro ys; rw [List.nil_append]; rfl
  | cons c cs ih =>
    intro ys
    rw [List.cons_append]
    rw [show (c :: cs).length = cs.length + 1 from rfl]
    rw [removeAllGo_succ]
    exact ih ys

theorem removeAllGo_append_newline (pat : List Char) (hne : pat ≠ []) (hnl : '\n' ∉ pat) :
    ∀ (xs : List Char) (k : Nat), k ≤ xs.length → ∀ (ys : List Char),
      removeAllGo pat k (xs ++ '\n' :: ys) =
        removeAllGo pat k xs ++ '\n' :: removeAllGo pat 0 ys := by
  intro xs
  induction xs with
  | nil =>
    intro k hk ys
    have hk0 : k = 0 := Nat.le_zero.mp hk
    subst hk0
    rw [List.nil_append, removeAllGo_nil, List.nil_append]
    rw [removeAllGo_zero, leadsWith_newline pat hne hnl ys]
    rfl
  | cons c cs ih =>
    intro k hk ys
    cases k with
    | zero =>
      rw [List.cons_append, removeAllGo_zero, removeAllGo_zero]
      rw [← List.cons_append, leadsWith_append_newline pat hnl (c :: cs) ys]
      by_cases hpre : leadsWith pat (c :: cs) = true
      · rw [hpre]
        simp only [if_true]
        have hlen : pat.length ≤ cs.length + 1 := by
          simpa using leadsWith_length_le pat (c :: cs) hpre
        exact ih (pat.length - 1) (Nat.sub_le_of_le_add hlen) ys
      · rw [Bool.not_eq_true] at hpre
        rw [hpre]
        simp only [Bool.false_eq_true, if_false]
        rw [ih 0 (Nat.zero_le _) ys]
        rfl
    | succ k' =>
      rw [List.cons_append, removeAllGo_succ, removeAllGo_succ]
      exact ih k' (Nat.le_of_succ_le_succ hk) ys

theorem removeAllGo_front (pat : List Char) (hne : pat ≠ []) (rest : List Char) :
    removeAllGo pat 0 (pat ++ rest) = removeAllGo pat 0 rest := by
  cases pat with
  | nil => exact absurd rfl hne
  | cons q ps =>
    rw [List.cons_append, removeAllGo_zero, ← List.cons_append,
        leadsWith_self_append (q :: ps) rest]
    simp only [if_true]
    rw [show (q :: ps).length - 1 = ps.length from rfl]
    exact removeAllGo_skip (q :: ps) ps rest

theorem removeAllGo_head_not_mem (q : Char) (ps : List Char) :
    ∀ (xs : List Char), q ∉ xs → removeAllGo (q :: ps) 0 xs = xs := by
  intro xs
  induction xs with
  | nil => intro _; rfl
  | cons c cs ih =>
    intro h
    have hqc : ¬ q = c := fun hq => h (by rw [hq]; exact List.mem_cons_self _ _)
    rw [removeAllGo_zero]
    have hlw : leadsWith (q :: ps) (c :: cs) = false := by simp [leadsWith, hqc]
    rw [hlw]
    simp only [Bool.false_eq_true, if_false]
    rw [ih (fun hm => h (List.mem_cons_of_mem _ hm))]

theorem dropWhile_append_singleton (q : Char → Bool) (a : Char) :
    ∀ (t : List Char), List.dropWhile q (t ++ [a]) =
      if (List.dropWhile q t).isEmpty then List.dropWhile q [a]
      else List.dropWhile q t ++ [a] := by
  intro t
  induction t with
  | nil => simp
  | cons c cs ih =>
    by_cases hc : q c = true
    · rw [List.cons_append, List.dropWhile_cons, List.dropWhile_cons]
      rw [hc]
      simp only [if_true]
      exact ih
    · rw [Bool.not_eq_true] at hc
      rw [List.cons_append, List.dropWhile_cons, List.dropWhile_cons]
      rw [hc]
      simp

theorem pyStrip_cons_newline (t : List Char) : pyStrip ('\n' :: t) = pyStrip t := by
  unfold pyStrip
  rw [List.dropWhile_cons]
  norm_num [pySpace]

theorem pyStrip_append_newline (t : List Char) : pyStrip (t ++ ['\n']) = pyStrip t := by
  unfold pyStrip
  rw [dropWhile_append_singleton pySpace '\n' t]
  by_cases h : (List.dropWhile pySpace t).isEmpty = true
  · rw [h]
    simp only [if_true]
    rw [List.isEmpty_iff.mp h]
    simp [List.dropWhile, pySpace]
  · rw [Bool.not_eq_true] at h
    rw [h]
    simp only [Bool.false_eq_true, if_false]
    rw [List.reverse_append]
    rw [show (['\n'] : List Char).reverse = ['\n'] from rfl]
    rw [List.singleton_append, List.dropWhile_cons]
    norm_num [pySpace]

theorem cleanRaw_fence (s : String) : cleanRaw (fenceJson s) = cleanRaw s := by
  have hp1ne : ("```json".data : List Char) ≠ [] := by decide
  have hp1nl : '\n' ∉ ("```json".data : List Char) := by decide
  have hp2ne : ("```".data : List Char) ≠ [] := by decide
  have hp2nl : '\n' ∉ ("```".data : List Char) := by decide
  unfold cleanRaw pyStripStr pyReplaceDel fenceJson
  apply congrArg
  have hdata : ("```json\n" ++ s ++ "\n```").data =
      "```json".data ++ '\n' :: (s.data ++ '\n' :: "```".data) := by
    rw [String.data_append, String.data_append]
    rw [show ("```json\n" : String).data = "```json".data ++ ['\n'] from rfl]
    rw [show ("\n```" : String).data = '\n' :: "```".data from rfl]
    simp [List.append_assoc]
  rw [hdata]
  rw [removeAllGo_front "```json".data hp1ne]
  rw [show ('\n' :: (s.data ++ '\n' :: "```".data)) =
      ([] : List Char) ++ '\n' :: (s.data ++ '\n' :: "```".data) from rfl]
  rw [removeAllGo_append_newline "```json".data hp1ne hp1nl [] 0 (by simp)]
  rw [removeAllGo_nil, List.nil_append]
  rw [removeAllGo_append_newline "```json".data hp1ne hp1nl s.data 0 (by simp)]
  rw [show removeAllGo "```json".data 0 "```".data = "```".data from by decide]
  rw [show ('\n' :: (removeAllGo "```json".data 0 s.data ++ '\n' :: "```".data)) =
      ('\n' :: removeAllGo "```json".data 0 s.data) ++ '\n' :: "```".data from by
        rw [List.cons_append]]
  rw [removeAllGo_append_newline "```".data hp2ne hp2nl
      ('\n' :: removeAllGo "```json".data 0 s.data) 0 (by simp)]
  rw [show removeAllGo "```".data 0 "```".data = [] from by decide]
  rw [show (('\n' :: removeAllGo "```json".data 0 s.data) =
      ([] : List Char) ++ '\n' :: removeAllGo "```json".data 0 s.data) from rfl]
  rw [removeAllGo_append_newline "```".data hp2ne hp2nl [] 0 (by simp)]
  rw [removeAllGo_nil, List.nil_append]
  rw [List.cons_append, pyStrip_cons_newline]
  rw [show (removeAllGo "```".data 0 (removeAllGo "```json".data 0 s.data) ++ ['\n'] : List Char) =
      removeAllGo "```".data 0 (removeAllGo "```json".data 0 s.data) ++ ['\n'] from rfl]
  rw [pyStrip_append_newline]

/-- Claim C6 (confirmed): for every string `s`, the Response Parser gives
the same result on `s` wrapped in a ```json code fence as on the unfenced
`s` — the scripts' global `replace` deletes the added fence markers and
the added newlines are trimmed, leaving exactly the cleaned unfenced text. -/
theorem C6_fence_roundtrip (s : String) : parseJsonObject (fenceJson s) = parseJsonObject s := by
  unfold parseJsonObject
  rw [cleanRaw_fence]

theorem eqStr_false_of_ne (v : JVal) (t : String) (h : v ≠ JVal.jstr t) :
    JVal.eqStr v t = false := by
  cases v with
  | jstr s =>
    have hs : s ≠ t := fun hh => h (by rw [hh])
    simp [JVal.eqStr, hs]
  | jnull => rfl
  | jbool b => rfl
  | jnum l => rfl
  | jarr l => rfl
  | jobj l => rfl


theorem verify_flow_failed (b : Backend) (u : String) (raw : String)
    (h : routeDecision b u = RouteResult.failed raw) :
    verify_flow b u = ⟨[routerCall u], FlowOutcome.routerFailed raw⟩ := by
  unfold verify_flow
  rw [h]

theorem verify_flow_decided (b : Backend) (u : String) (tid : JVal)
    (h : routeDecision b u = RouteResult.decided tid) :
    verify_flow b u = flowAfterRoute b u tid := by
  unfold verify_flow
  rw [h]

theorem flowAfterRoute_chat (b : Backend) (u : String) :
    flowAfterRoute b u (JVal.jstr "chat") = ⟨[routerCall u], FlowOutcome.chatDone⟩ := by
  unfold flowAfterRoute
  simp [JVal.eqStr]

theorem flowAfterRoute_constructorFailed (b : Backend) (u : String) (tid : JVal)
    (hc : JVal.eqStr tid "chat" = false) (h : construct b tid u = none) :
    flowAfterRoute b u tid =
      ⟨[routerCall u, constructorCall tid u],
       FlowOutcome.constructorFailed tid (b (constructorCall tid u))⟩ := by
  unfold flowAfterRoute
  rw [hc]
  simp only [Bool.false_eq_true, if_false]
  rw [h]

theorem flowAfterRoute_constructed (b : Backend) (u : String) (tid : JVal)
    (cfs : List (String × JVal))
    (hc : JVal.eqStr tid "chat" = false) (h : construct b tid u = some cfs) :
    flowAfterRoute b u tid = flowAfterParams b u tid cfs := by
  unfold flowAfterRoute
  rw [hc]
  simp only [Bool.false_eq_true, if_false]
  rw [h]

theorem flowAfterParams_completed (b : Backend) (u : String) (tid : JVal)
    (cfs ps : List (String × JVal)) (h : paramsVal cfs = JVal.jobj ps) :
    flowAfterParams b u tid cfs =
      ⟨[routerCall u, constructorCall tid u, responderCall tid (mockResult tid ps) u],
       FlowOutcome.completed tid cfs (mockResult tid ps)
         (b (responderCall tid (mockResult tid ps) u))⟩ := by
  unfold flowAfterParams
  rw [h]

theorem flowAfterParams_calls_head (b : Backend) (u : String) (tid : JVal)
    (cfs : List (String × JVal)) :
    (flowAfterParams b u tid cfs).calls.head? = some (routerCall u) := by
  unfold flowAfterParams
  cases paramsVal cfs <;> rfl

theorem flowAfterParams_constructorInvoked (b : Backend) (u : String) (tid : JVal)
    (cfs : List (String × JVal)) :
    constructorInvoked (flowAfterParams b u tid cfs).outcome = true := by
  unfold flowAfterParams
  cases paramsVal cfs <;> rfl

theorem flowAfterParams_calledToolId (b : Backend) (u : String) (tid : JVal)
    (cfs : List (String × JVal)) :
    calledToolId (flowAfterParams b u tid cfs).outcome = some tid := by
  unfold flowAfterParams
  cases paramsVal cfs <;> rfl

theorem flowAfterRoute_calls_head (b : Backend) (u : String) (tid : JVal) :
    (flowAfterRoute b u tid).calls.head? = some (routerCall u) := by
  unfold flowAfterRoute
  by_cases hc : JVal.eqStr tid "chat" = true
  · simp [hc]
  · rw [Bool.not_eq_true] at hc
    simp only [hc, Bool.false_eq_true, if_false]
    cases construct b tid u with
    | none => rfl
    | some cfs => exact flowAfterParams_calls_head b u tid cfs

theorem verify_flow_calls_head (b : Backend) (u : String) :
    (verify_flow b u).calls.head? = some (routerCall u) := by
  unfold verify_flow
  cases routeDecision b u with
  | failed raw => rfl
  | decided tid => exact flowAfterRoute_calls_head b u tid

/-- Claim C4 (confirmed): when the Router's decision is the chat intent,
`verify_flow` ends at its chat early exit — the only backend call made is
the Router call, so neither the Constructor nor the Executor runs in that
turn. -/
theorem C4_chat_early_exit (b : Backend) (u : String)
    (h : routeDecision b u = RouteResult.decided (JVal.jstr "chat")) :
    (verify_flow b u).outcome = FlowOutcome.chatDone ∧
    (verify_flow b u).calls = [routerCall u] := by
  rw [verify_flow_decided b u (JVal.jstr "chat") h, flowAfterRoute_chat b u]
  exact ⟨rfl, rfl⟩

/-- Witness for C4: the Scenario B backend reply on the utterance `Hola`. -/
theorem C4_witness :
    routeDecision backendChat "Hola" = RouteResult.decided (JVal.jstr "chat") ∧
    (verify_flow backendChat "Hola").outcome = FlowOutcome.chatDone ∧
    (verify_flow backendChat "Hola").calls = [routerCall "Hola"] := by
  have h : routeDecision backendChat "Hola" = RouteResult.decided (JVal.jstr "chat") := rfl
  exact ⟨h, (C4_chat_early_exit backendChat "Hola" h).1, (C4_chat_early_exit backendChat "Hola" h).2⟩

/-- Claim C10 (confirmed): a routing reply that parses as a JSON object
with no `tool` member silently defaults to the chat decision
(`router_json.get('tool', 'chat')`), and the turn ends on the chat path
without reaching the Constructor or the Executor. -/
theorem C10_missing_tool_defaults_chat (b : Backend) (u : String) (fs : List (String × JVal))
    (hparse : jsonParse (cleanRaw (b (routerCall u))) = some (JVal.jobj fs))
    (hmiss : pyGet fs "tool" = none) :
    routeDecision b u = RouteResult.decided (JVal.jstr "chat") ∧
    (verify_flow b u).outcome = FlowOutcome.chatDone ∧
    (verify_flow b u).calls = [routerCall u] := by
  have hrd : routeDecision b u = RouteResult.decided (JVal.jstr "chat") := by
    unfold routeDecision
    rw [hparse]
    show RouteResult.decided ((pyGet fs "tool").getD (JVal.jstr "chat")) =
      RouteResult.decided (JVal.jstr "chat")
    rw [hmiss]
    rfl
  refine ⟨hrd, ?_, ?_⟩ <;>
    rw [verify_flow_decided b u (JVal.jstr "chat") hrd, flowAfterRoute_chat b u]

/-- Witness for C10: the backend reply is the empty JSON object. -/
theorem C10_witness :
    jsonParse (cleanRaw (backendEmptyObj (routerCall "Hola"))) = some (JVal.jobj []) ∧
    routeDecision backendEmptyObj "Hola" = RouteResult.decided (JVal.jstr "chat") ∧
    (verify_flow backendEmptyObj "Hola").outcome = FlowOutcome.chatDone := by
  have h1 : jsonParse (cleanRaw (backendEmptyObj (routerCall "Hola"))) = some (JVal.jobj []) := rfl
  have h2 : pyGet ([] : List (String × JVal)) "tool" = none := rfl
  exact ⟨h1, (C10_missing_tool_defaults_chat backendEmptyObj "Hola" [] h1 h2).1,
         (C10_missing_tool_defaults_chat backendEmptyObj "Hola" [] h1 h2).2.1⟩

/-- Claim C8 (confirmed): the Router calls the backend at temperature 0.0
(and that call is the turn's first), and the route decision is a function
of that single call's reply alone — so against a deterministic backend
stub, repeated `route` invocations on a fixed utterance yield the same
tool id. -/
theorem C8_router_temperature_zero_deterministic (b b2 : Backend) (u : String)
    (h : b (routerCall u) = b2 (routerCall u)) :
    (routerCall u).temperature = 0 ∧
    (verify_flow b u).calls.head? = some (routerCall u) ∧
    routeDecision b u = routeDecision b2 u := by
  refine ⟨rfl, verify_flow_calls_head b u, ?_⟩
  unfold routeDecision
  rw [h]

/-- Witness for C8: two backends that agree on the router call (and
disagree on every other call) produce the same route decision. -/
theorem C8_witness :
    backendChat (routerCall "Hola") = backendChatElsewhereDifferent (routerCall "Hola") ∧
    (routerCall "Hola").temperature = 0 ∧
    routeDecision backendChat "Hola" = routeDecision backendChatElsewhereDifferent "Hola" := by
  have h : backendChat (routerCall "Hola") = backendChatElsewhereDifferent (routerCall "Hola") := rfl
  have t := C8_router_temperature_zero_deterministic backendChat backendChatElsewhereDifferent "Hola" h
  exact ⟨h, t.1, t.2.2⟩

/-- Counterexample for C1: on the backend reply
`{"tool": "not_a_real_tool"}` — a parsed JSON object whose `tool` field is
neither `chat` nor a catalog id — the route decision is
`{toolId: "not_a_real_tool"}`, not `{toolId: "chat"}`, and the flow passes
the unrecognized id downstream: the Constructor stage runs with it. -/
theorem C1_counterexample :
    "not_a_real_tool" ∉ catalogIds ∧
    "not_a_real_tool" ≠ "chat" ∧
    parsesAsObj (backendUnknownTool (routerCall "Pon un banner estilo shark color azul")) = true ∧
    routeDecision backendUnknownTool "Pon un banner estilo shark color azul" =
      RouteResult.decided (JVal.jstr "not_a_real_tool") ∧
    routeDecision backendUnknownTool "Pon un banner estilo shark color azul" ≠
      RouteResult.decided (JVal.jstr "chat") ∧
    calledToolId (verify_flow backendUnknownTool "Pon un banner estilo shark color azul").outcome =
      some (JVal.jstr "not_a_real_tool") := by
  refine ⟨by decide, by decide, rfl, rfl, ?_, rfl⟩
  intro h
  have h2 : RouteResult.decided (JVal.jstr "not_a_real_tool") =
      RouteResult.decided (JVal.jstr "chat") := h
  have h3 : JVal.jstr "not_a_real_tool" = JVal.jstr "chat" := by injection h2
  have h4 : "not_a_real_tool" = "chat" := by injection h3
  exact absurd h4 (by decide)

/-- Claim C1 as amended: the Router performs no catalog validation —
whenever the routing reply parses as a JSON object whose `tool` field is
`t`, `route` yields `{toolId: t}` unchanged (unrecognized ids included),
and when `t` is not the chat intent the Constructor stage is invoked with
exactly `t`; only a missing `tool` field defaults to chat. -/
theorem C1_amended_router_no_validation (b : Backend) (u : String)
    (fs : List (String × JVal)) (t : JVal)
    (hparse : jsonParse (cleanRaw (b (routerCall u))) = some (JVal.jobj fs))
    (htool : pyGet fs "tool" = some t) (hne : t ≠ JVal.jstr "chat") :
    routeDecision b u = RouteResult.decided t ∧
    constructorInvoked (verify_flow b u).outcome = true ∧
    calledToolId (verify_flow b u).outcome = some t := by
  have hrd : routeDecision b u = RouteResult.decided t := by
    unfold routeDecision
    rw [hparse]
    show RouteResult.decided ((pyGet fs "tool").getD (JVal.jstr "chat")) = RouteResult.decided t
    rw [htool]
    rfl
  have hc : JVal.eqStr t "chat" = false := eqStr_false_of_ne t "chat" hne
  rw [verify_flow_decided b u t hrd]
  cases hcon : construct b t u with
  | none =>
    rw [flowAfterRoute_constructorFailed b u t hc hcon]
    exact ⟨hrd, rfl, rfl⟩
  | some cfs =>
    rw [flowAfterRoute_constructed b u t cfs hc hcon]
    exact ⟨hrd, flowAfterParams_constructorInvoked b u t cfs,
      flowAfterParams_calledToolId b u t cfs⟩

/-- Witness for the amended C1: the reply `{"tool": "tech_stack"}` routes
to `tech_stack` and the Constructor stage runs with it. -/
theorem C1_amended_witness :
    jsonParse (cleanRaw (backendTechStack (routerCall "ponme badges"))) =
      some (JVal.jobj [("tool", JVal.jstr "tech_stack")]) ∧
    routeDecision backendTechStack "ponme badges" =
      RouteResult.decided (JVal.jstr "tech_stack") ∧
    calledToolId (verify_flow backendTechStack "ponme badges").outcome =
      some (JVal.jstr "tech_stack") := by
  have h1 : jsonParse (cleanRaw (backendTechStack (routerCall "ponme badges"))) =
      some (JVal.jobj [("tool", JVal.jstr "tech_stack")]) := rfl
  have h2 : pyGet [("tool", JVal.jstr "tech_stack")] "tool" = some (JVal.jstr "tech_stack") := rfl
  have h3 : JVal.jstr "tech_stack" ≠ JVal.jstr "chat" := by
    intro h
    have h4 : "tech_stack" = "chat" := by injection h
    exact absurd h4 (by decide)
  exact ⟨h1,
    (C1_amended_router_no_validation backendTechStack "ponme badges" _ _ h1 h2 h3).1,
    (C1_amended_router_no_validation backendTechStack "ponme badges" _ _ h1 h2 h3).2.2⟩

/-- Counterexample for C3: on the unparseable reply `Sorry, I cannot help`
the agent-flow Router does not fall back to `{toolId: "chat"}` — it fails
the turn — and the analysis-flow Router falls back to the guessed id
`read_repo` and invokes the Constructor with it. -/
theorem C3_counterexample :
    parsesAsObj (backendSorry (routerCall "Hola")) = false ∧
    routeDecision backendSorry "Hola" = RouteResult.failed "Sorry, I cannot help" ∧
    routeDecision backendSorry "Hola" ≠ RouteResult.decided (JVal.jstr "chat") ∧
    parsesAsObj (backendSorry analysisRouterCall) = false ∧
    analysisToolId backendSorry = JVal.jstr "read_repo" ∧
    (verify_analysis_flow backendSorry).1 =
      [analysisRouterCall,
       ⟨get_analysis_constructor_prompt (JVal.jstr "read_repo"), analysisUserInput, 0⟩,
       ⟨get_analysis_responder_prompt (JVal.jstr "read_repo") analysisResult analysisUserInput,
        analysisUserInput, (7 : ℚ) / 10⟩] := by
  refine ⟨rfl, rfl, ?_, rfl, rfl, rfl⟩
  intro h
  have h2 : RouteResult.failed "Sorry, I cannot help" =
      RouteResult.decided (JVal.jstr "chat") := h
  exact RouteResult.noConfusion h2

/-- Claim C3 as amended: on a reply that does not parse as a JSON object,
`verify_agent_flow`'s Router does not fall back to chat — the turn fails
at the routing stage (the only backend call made) and the Constructor is
never invoked; `verify_repo_analysis`'s Router instead falls back to the
hardcoded guess `read_repo`, and its Constructor is always invoked with
that guessed id. -/
theorem C3_amended_malformed_fallbacks :
    (∀ (b : Backend) (u : String), parsesAsObj (b (routerCall u)) = false →
      routeDecision b u = RouteResult.failed (b (routerCall u)) ∧
      (verify_flow b u).outcome = FlowOutcome.routerFailed (b (routerCall u)) ∧
      (verify_flow b u).calls = [routerCall u] ∧
      constructorInvoked (verify_flow b u).outcome = false) ∧
    (∀ b : Backend, parsesAsObj (b analysisRouterCall) = false →
      analysisToolId b = JVal.jstr "read_repo" ∧
      (verify_analysis_flow b).1 =
        [analysisRouterCall,
         ⟨get_analysis_constructor_prompt (JVal.jstr "read_repo"), analysisUserInput, 0⟩,
         ⟨get_analysis_responder_prompt (JVal.jstr "read_repo") analysisResult analysisUserInput,
          analysisUserInput, (7 : ℚ) / 10⟩]) := by
  constructor
  · intro b u h
    have hrd : routeDecision b u = RouteResult.failed (b (routerCall u)) := by
      unfold parsesAsObj at h
      unfold routeDecision
      cases hj : jsonParse (cleanRaw (b (routerCall u))) with
      | none => rfl
      | some v =>
        cases v with
        | jobj fs => rw [hj] at h; simp at h
        | jnull => rfl
        | jbool x => rfl
        | jnum x => rfl
        | jstr x => rfl
        | jarr x => rfl
    rw [verify_flow_failed b u (b (routerCall u)) hrd]
    exact ⟨hrd, rfl, rfl, rfl⟩
  · intro b h
    have htid : analysisToolId b = JVal.jstr "read_repo" := by
      unfold parsesAsObj at h
      unfold analysisToolId
      cases hj : jsonParse (cleanRaw (b analysisRouterCall)) with
      | none => rfl
      | some v =>
        cases v with
        | jobj fs => rw [hj] at h; simp at h
        | jnull => rfl
        | jbool x => rfl
        | jnum x => rfl
        | jstr x => rfl
        | jarr x => rfl
    refine ⟨htid, ?_⟩
    unfold verify_analysis_flow
    rw [htid]

/-- Witness for the amended C3: the unparseable reply
`Sorry, I cannot help` in both flows. -/
theorem C3_amended_witness :
    parsesAsObj (backendSorry (routerCall "Hola")) = false ∧
    routeDecision backendSorry "Hola" = RouteResult.failed (backendSorry (routerCall "Hola")) ∧
    constructorInvoked (verify_flow backendSorry "Hola").outcome = false ∧
    analysisToolId backendSorry = JVal.jstr "read_repo" := by
  have h : parsesAsObj (backendSorry (routerCall "Hola")) = false := rfl
  have h2 : parsesAsObj (backendSorry analysisRouterCall) = false := rfl
  exact ⟨h, (C3_amended_malformed_fallbacks.1 backendSorry "Hola" h).1,
    (C3_amended_malformed_fallbacks.1 backendSorry "Hola" h).2.2.2,
    (C3_amended_malformed_fallbacks.2 backendSorry h2).1⟩

/-- Counterexample for C2: on a constructor reply that parses but whose
`params` object is empty, `construct` returns the ParameterSet as-is even
though the required fields of `welcome_header` (here `color`) are missing
— it neither fails nor reports an `IncompleteParameters` set. -/
theorem C2_counterexample :
    construct backendEmptyParams (JVal.jstr "welcome_header") "Pon un banner" =
      some [("action", JVal.jstr "insert_banner"), ("toolId", JVal.jstr "welcome_header"),
            ("params", JVal.jobj [])] ∧
    "color" ∈ requiredFields "welcome_header" ∧
    "color" ∉ paramsKeys [("action", JVal.jstr "insert_banner"),
      ("toolId", JVal.jstr "welcome_header"), ("params", JVal.jobj [])] := by
  refine ⟨rfl, by decide, by decide⟩

/-- Claim C2 as amended: `construct` performs no required-field
validation — whenever the constructor reply cleans and parses to a JSON
object it is returned unchanged as the ParameterSet, whatever fields its
`params` has, and `construct` fails exactly when the reply does not parse
to an object (there is no `IncompleteParameters` outcome at all). -/
theorem C2_amended_no_required_check (b : Backend) (t : JVal) (u : String) :
    (∀ cfs : List (String × JVal),
      jsonParse (cleanRaw (b (constructorCall t u))) = some (JVal.jobj cfs) →
      construct b t u = some cfs) ∧
    (construct b t u = none ↔ parsesAsObj (b (constructorCall t u)) = false) := by
  constructor
  · intro cfs h
    unfold construct
    rw [h]
  · unfold construct parsesAsObj
    cases hj : jsonParse (cleanRaw (b (constructorCall t u))) with
    | none => simp
    | some v => cases v <;> simp

/-- Witness for the amended C2: the Scenario A reply with `type` and
`color` extracted is returned unchanged. -/
theorem C2_amended_witness :
    jsonParse (cleanRaw (backendFullParams
        (constructorCall (JVal.jstr "welcome_header") "Pon un banner estilo shark color azul"))) =
      some (JVal.jobj [("action", JVal.jstr "insert_banner"),
        ("toolId", JVal.jstr "welcome_header"),
        ("params", JVal.jobj [("type", JVal.jstr "shark"), ("color", JVal.jstr "blue")])]) ∧
    construct backendFullParams (JVal.jstr "welcome_header")
        "Pon un banner estilo shark color azul" =
      some [("action", JVal.jstr "insert_banner"), ("toolId", JVal.jstr "welcome_header"),
        ("params", JVal.jobj [("type", JVal.jstr "shark"), ("color", JVal.jstr "blue")])] := by
  have h : jsonParse (cleanRaw (backendFullParams
      (constructorCall (JVal.jstr "welcome_header") "Pon un banner estilo shark color azul"))) =
      some (JVal.jobj [("action", JVal.jstr "insert_banner"),
        ("toolId", JVal.jstr "welcome_header"),
        ("params", JVal.jobj [("type", JVal.jstr "shark"), ("color", JVal.jstr "blue")])]) := rfl
  exact ⟨h, (C2_amended_no_required_check backendFullParams (JVal.jstr "welcome_header")
    "Pon un banner estilo shark color azul").1 _ h⟩

/-- Counterexample for C5: a turn whose constructor reply parses but is
incomplete (its `params` object is empty, missing the required `color` of
`welcome_header`) does not fail at CONSTRUCTING — the mocked Executor
runs and an ExecutionResult exists, with the missing color silently
defaulted to `auto`. -/
theorem C5_counterexample :
    construct backendRouteThenEmptyParams (JVal.jstr "welcome_header")
        "Pon un banner estilo shark color azul" =
      some [("action", JVal.jstr "insert_banner"), ("toolId", JVal.jstr "welcome_header"),
            ("params", JVal.jobj [])] ∧
    "color" ∈ requiredFields "welcome_header" ∧
    "color" ∉ paramsKeys [("action", JVal.jstr "insert_banner"),
      ("toolId", JVal.jstr "welcome_header"), ("params", JVal.jobj [])] ∧
    executorInvoked
      (verify_flow backendRouteThenEmptyParams "Pon un banner estilo shark color azul").outcome =
      true ∧
    executionResultExists
      (verify_flow backendRouteThenEmptyParams "Pon un banner estilo shark color azul").outcome =
      true := by
  exact ⟨rfl, by decide, by decide, rfl, rfl⟩

/-- Claim C5 as amended: when the constructor reply for a routed
(non-chat) tool id does not parse to a JSON object, the turn fails at the
CONSTRUCTING stage — the Executor is never invoked, no ExecutionResult
exists, and the only backend calls made are the Router and Constructor
calls.  (A parseable-but-incomplete reply, by contrast, does not fail:
see the counterexample.) -/
theorem C5_amended_unparseable_fails (b : Backend) (u : String) (tid : JVal)
    (hrd : routeDecision b u = RouteResult.decided tid)
    (hchat : tid ≠ JVal.jstr "chat")
    (hcon : construct b tid u = none) :
    (verify_flow b u).outcome =
      FlowOutcome.constructorFailed tid (b (constructorCall tid u)) ∧
    executorInvoked (verify_flow b u).outcome = false ∧
    executionResultExists (verify_flow b u).outcome = false ∧
    (verify_flow b u).calls = [routerCall u, constructorCall tid u] := by
  have hc : JVal.eqStr tid "chat" = false := eqStr_false_of_ne tid "chat" hchat
  rw [verify_flow_decided b u tid hrd, flowAfterRoute_constructorFailed b u tid hc hcon]
  exact ⟨rfl, rfl, rfl, rfl⟩

/-- Witness for the amended C5: Scenario C — the Router picks
`welcome_header`, the Constructor backend answers `Sorry, I cannot help`,
and the turn fails at CONSTRUCTING with the Executor never invoked. -/
theorem C5_amended_witness :
    routeDecision backendRouteThenSorry "Pon un banner estilo shark color azul" =
      RouteResult.decided (JVal.jstr "welcome_header") ∧
    construct backendRouteThenSorry (JVal.jstr "welcome_header")
      "Pon un banner estilo shark color azul" = none ∧
    (verify_flow backendRouteThenSorry "Pon un banner estilo shark color azul").outcome =
      FlowOutcome.constructorFailed (JVal.jstr "welcome_header")
        (backendRouteThenSorry
          (constructorCall (JVal.jstr "welcome_header") "Pon un banner estilo shark color azul")) ∧
    executorInvoked
      (verify_flow backendRouteThenSorry "Pon un banner estilo shark color azul").outcome =
      false := by
  have h1 : routeDecision backendRouteThenSorry "Pon un banner estilo shark color azul" =
      RouteResult.decided (JVal.jstr "welcome_header") := rfl
  have h2 : (JVal.jstr "welcome_header" : JVal) ≠ JVal.jstr "chat" := by
    intro h
    have h4 : "welcome_header" = "chat" := by injection h
    exact absurd h4 (by decide)
  have h3 : construct backendRouteThenSorry (JVal.jstr "welcome_header")
      "Pon un banner estilo shark color azul" = none := rfl
  have t := C5_amended_unparseable_fails backendRouteThenSorry
    "Pon un banner estilo shark color azul" (JVal.jstr "welcome_header") h1 h2 h3
  exact ⟨h1, h3, t.1, t.2.1⟩

/-- Counterexample for C9: the Responder's raw text is used as the final
message with no sanity check at all — a backend whose responder reply is
the empty string still completes the turn, whose final message is empty,
contradicting both the length check and the templated fallback. -/
theorem C9_counterexample :
    executionResultExists
      (verify_flow backendEmptyResponder "Pon un banner estilo shark color azul").outcome = true ∧
    finalMessageOf
      (verify_flow backendEmptyResponder "Pon un banner estilo shark color azul").outcome =
      some "" := by
  exact ⟨rfl, rfl⟩

/-- Claim C9 as amended: the Responder performs no sanity check and has no
fallback — whenever the turn reaches the Responder, the raw text of the
responder backend call is the turn's final message verbatim (empty or
arbitrarily long included), and the turn completes. -/
theorem C9_amended_no_sanity_check (b : Backend) (u : String) (tid : JVal)
    (cfs ps : List (String × JVal))
    (hrd : routeDecision b u = RouteResult.decided tid)
    (hchat : tid ≠ JVal.jstr "chat")
    (hcon : construct b tid u = some cfs)
    (hps : paramsVal cfs = JVal.jobj ps) :
    (verify_flow b u).outcome =
      FlowOutcome.completed tid cfs (mockResult tid ps)
        (b (responderCall tid (mockResult tid ps) u)) ∧
    finalMessageOf (verify_flow b u).outcome =
      some (b (responderCall tid (mockResult tid ps) u)) := by
  have hc : JVal.eqStr tid "chat" = false := eqStr_false_of_ne tid "chat" hchat
  rw [verify_flow_decided b u tid hrd, flowAfterRoute_constructed b u tid cfs hc hcon,
      flowAfterParams_completed b u tid cfs ps hps]
  exact ⟨rfl, rfl⟩

/-- Witness for the amended C9: a complete Scenario A turn whose final
message is exactly the responder backend's raw confirmation text. -/
theorem C9_amended_witness :
    routeDecision backendNiceResponder "Pon un banner estilo shark color azul" =
      RouteResult.decided (JVal.jstr "welcome_header") ∧
    finalMessageOf
      (verify_flow backendNiceResponder "Pon un banner estilo shark color azul").outcome =
      some "¡Listo! Tu banner ya está en el README." := by
  have h1 : routeDecision backendNiceResponder "Pon un banner estilo shark color azul" =
      RouteResult.decided (JVal.jstr "welcome_header") := rfl
  have h2 : (JVal.jstr "welcome_header" : JVal) ≠ JVal.jstr "chat" := by
    intro h
    have h4 : "welcome_header" = "chat" := by injection h
    exact absurd h4 (by decide)
  have h3 : construct backendNiceResponder (JVal.jstr "welcome_header")
      "Pon un banner estilo shark color azul" =
      some [("action", JVal.jstr "insert_banner"), ("toolId", JVal.jstr "welcome_header"),
        ("params", JVal.jobj [("type", JVal.jstr "shark"), ("color", JVal.jstr "blue")])] := rfl
  have h4 : paramsVal [("action", JVal.jstr "insert_banner"),
      ("toolId", JVal.jstr "welcome_header"),
      ("params", JVal.jobj [("type", JVal.jstr "shark"), ("color", JVal.jstr "blue")])] =
      JVal.jobj [("type", JVal.jstr "shark"), ("color", JVal.jstr "blue")] := rfl
  have t := C9_amended_no_sanity_check backendNiceResponder
    "Pon un banner estilo shark color azul" (JVal.jstr "welcome_header") _ _ h1 h2 h3 h4
  exact ⟨h1, t.2⟩

theorem leadsWith_head_not_mem (q : Char) (ps : List Char) :
    ∀ xs : List Char, q ∉ xs → leadsWith (q :: ps) xs = false := by
  intro xs
  cases xs with
  | nil => intro _; rfl
  | cons c cs =>
    intro h
    have hqc : ¬ q = c := fun hq => h (by rw [hq]; exact List.mem_cons_self _ _)
    simp [leadsWith, hqc]

theorem cleanRaw_no_backtick (s : String) (h : '`' ∉ s.data) : cleanRaw s = pyStripStr s := by
  have hmk : ∀ l : List Char, (String.mk l).data = l := fun _ => rfl
  unfold cleanRaw pyReplaceDel
  simp only [hmk]
  rw [removeAllGo_head_not_mem '`' ['`', '`', 'j', 's', 'o', 'n'] s.data h,
      removeAllGo_head_not_mem '`' ['`', '`'] s.data h]

theorem cleanSpec_no_backtick (s : String) (h : '`' ∉ s.data) : cleanSpec s = pyStripStr s := by
  have h1 : leadsWith "```json".data s.data = false := by
    rw [show ("```json" : String).data = '`' :: "``json".data from rfl]
    exact leadsWith_head_not_mem '`' "``json".data s.data h
  have h2 : leadsWith "```".data s.data = false := by
    rw [show ("```" : String).data = '`' :: "``".data from rfl]
    exact leadsWith_head_not_mem '`' "``".data s.data h
  have h3 : leadsWith "```".data.reverse s.data.reverse = false := by
    rw [show (("```" : String).data.reverse : List Char) = '`' :: "``".data from rfl]
    exact leadsWith_head_not_mem '`' "``".data s.data.reverse
      (fun hm => h (List.mem_reverse.mp hm))
  unfold cleanSpec stripTrailFence stripLeadFence
  simp only [h1, h2, h3, Bool.false_eq_true, if_false]
  rfl

/-- Counterexample for C7: on the raw text `{"tool": "a```b"}` — whose
only triple-backtick run is in the interior, inside a JSON string — the
scripts' parser deletes the interior backticks (global `replace`), parsing
the tool field as `ab`, while the spec's edge-only algorithm leaves them
untouched and parses `a```b`; the two parses differ. -/
theorem C7_counterexample :
    parseJsonObject "\x7b\"tool\": \"a```b\"\x7d" =
      some (JVal.jobj [("tool", JVal.jstr "ab")]) ∧
    parseJsonObjectSpec "\x7b\"tool\": \"a```b\"\x7d" =
      some (JVal.jobj [("tool", JVal.jstr "a```b")]) ∧
    parseJsonObject "\x7b\"tool\": \"a```b\"\x7d" ≠
      parseJsonObjectSpec "\x7b\"tool\": \"a```b\"\x7d" := by
  refine ⟨rfl, rfl, ?_⟩
  intro h
  have h2 : (some (JVal.jobj [("tool", JVal.jstr "ab")]) : Option JVal) =
      some (JVal.jobj [("tool", JVal.jstr "a```b")]) := h
  have h3 : (JVal.jobj [("tool", JVal.jstr "ab")] : JVal) =
      JVal.jobj [("tool", JVal.jstr "a```b")] := by injection h2
  have h4 : ([("tool", JVal.jstr "ab")] : List (String × JVal)) =
      [("tool", JVal.jstr "a```b")] := by injection h3
  have h5 : (("tool", JVal.jstr "ab") : String × JVal) = ("tool", JVal.jstr "a```b") := by
    injection h4
  have h6 : (JVal.jstr "ab" : JVal) = JVal.jstr "a```b" := congrArg Prod.snd h5
  have h7 : "ab" = "a```b" := by injection h6
  exact absurd h7 (by decide)

/-- Claim C7 as amended: the scripts' Response Parser deletes every
occurrence of the fence markers ```` ```json ```` and ```` ``` ````
anywhere in the text — interior occurrences included — before trimming
and strictly parsing, rather than stripping only at the edges; on text
containing no backtick at all it coincides with the spec's edge-only
algorithm (both reduce to trim-then-parse), and any parse failure is
`MalformedResponse` with no partial recovery in either case. -/
theorem C7_amended_global_strip (s : String) (h : '`' ∉ s.data) :
    parseJsonObject s = parseJsonObjectSpec s := by
  unfold parseJsonObject parseJsonObjectSpec
  rw [cleanRaw_no_backtick s h, cleanSpec_no_backtick s h]

/-- Witness for the amended C7: a backtick-free reply parses identically
under the scripts' cleaning and the spec's edge-only cleaning. -/
theorem C7_amended_witness :
    '`' ∉ ("\x7b\"tool\": \"chat\"\x7d" : String).data ∧
    parseJsonObject "\x7b\"tool\": \"chat\"\x7d" =
      parseJsonObjectSpec "\x7b\"tool\": \"chat\"\x7d" := by
  have h : '`' ∉ ("\x7b\"tool\": \"chat\"\x7d" : String).data := by decide
  exact ⟨h, C7_amended_global_strip _ h⟩
